import Mathlib

/-!
Verification of the aa-proxy-rs core against its specification.

This file contains a shallow embedding, in Lean 4, of the parts of the
aa-proxy-rs sources that the specification's testable properties talk
about:

* the Android Auto frame codec (`Packet::transmit` and the decode loop of
  `endpoint_reader` in `src/mitm.rs`),
* the stall-detection and action-handling logic of `transfer_monitor`
  (`src/io_uring.rs`),
* the Bluetooth bootstrap read path (`read_message` in `src/bluetooth.rs`),
* the USB role choreography (`enable_default_and_wait_for_accessory` in
  `src/usb_gadget.rs`),
* the packet rewriting hook (`pkt_modify_hook` in `src/mitm.rs`), together
  with a model of the protobuf messages it inspects (the `.proto` schema is
  generated at build time and not part of the sources; the message model is
  therefore reconstructed from the specification's data model).

Machine integers are modelled as `Nat` with explicit `% 2^w` where the
source narrows; byte buffers are `List Nat`; fallible operations return
`Option` or `Except`; a Rust panic is modelled as the `none` result.
-/

namespace AAProxy

/-! ## Frame codec (src/mitm.rs) -/

/-- `HEADER_LENGTH` from mitm.rs: the basic 4-byte frame header. -/
def HEADER_LENGTH : Nat := 4

/-- `FRAME_TYPE_FIRST` flag bit (1 << 0). -/
def FRAME_TYPE_FIRST : Nat := 1

/-- `FRAME_TYPE_LAST` flag bit (1 << 1). -/
def FRAME_TYPE_LAST : Nat := 2

/-- `FRAME_TYPE_MASK = FRAME_TYPE_FIRST | FRAME_TYPE_LAST`. -/
def FRAME_TYPE_MASK : Nat := Nat.lor FRAME_TYPE_FIRST FRAME_TYPE_LAST

/-- `ENCRYPTED` flag bit (1 << 3). -/
def ENCRYPTED : Nat := 8

/-- The in-memory packet representation (`struct Packet` in mitm.rs):
channel byte, flags byte, optional 4-byte final length, payload bytes. -/
structure Packet where
  channel : Nat
  flags : Nat
  final_length : Option Nat
  payload : List Nat
deriving Repr, DecidableEq

/-- The frame bytes composed by `Packet::transmit` (mitm.rs lines 161-194):
channel byte, flags byte, the payload length as a big-endian `u16`
(`payload.len() as u16`, hence `% 65536`), the optional 4-byte big-endian
`final_length`, then the payload. -/
def Packet.transmit (p : Packet) : List Nat :=
  let len := p.payload.length % 65536
  [p.channel, p.flags, (len / 256) % 256, len % 256]
    ++ (match p.final_length with
        | some final_len =>
            [(final_len / 16777216) % 256, (final_len / 65536) % 256,
             (final_len / 256) % 256, final_len % 256]
        | none => [])
    ++ p.payload

/-- The `payload_size` read by the decode loop (mitm.rs line 718): bytes 2
and 3 of the buffer as a big-endian `u16`. -/
def ds_payload_size (rbuf : List Nat) : Nat :=
  rbuf.getD 3 0 + (rbuf.getD 2 0) * 256

/-- The condition under which the decode loop extends the header (mitm.rs
line 719): strictly more than 8 buffered bytes and
`flags & FRAME_TYPE_MASK == FRAME_TYPE_FIRST`. -/
def ds_first_cont (rbuf : List Nat) : Bool :=
  decide (8 < rbuf.length) &&
    decide (Nat.land (rbuf.getD 1 0) FRAME_TYPE_MASK = FRAME_TYPE_FIRST)

/-- The `header_size` used by the decode loop (mitm.rs lines 716, 720). -/
def ds_header_size (rbuf : List Nat) : Nat :=
  if ds_first_cont rbuf then HEADER_LENGTH + 4 else HEADER_LENGTH

/-- The `final_length` read by the decode loop (mitm.rs lines 721-726). -/
def ds_final_length (rbuf : List Nat) : Option Nat :=
  if ds_first_cont rbuf then
    some ((rbuf.getD 4 0) * 16777216 + (rbuf.getD 5 0) * 65536 +
          (rbuf.getD 6 0) * 256 + rbuf.getD 7 0)
  else none

/-- The `frame_size` of the decode loop (mitm.rs line 728). -/
def ds_frame_size (rbuf : List Nat) : Nat :=
  ds_header_size rbuf + ds_payload_size rbuf

/-- One pass of the inner decode loop of `endpoint_reader` (mitm.rs lines
712-749): if strictly more than `HEADER_LENGTH` bytes are buffered, read
the header (extending it by the 4-byte `final_length` under
`ds_first_cont`); when the whole frame is buffered, remove it and produce
the packet, otherwise produce nothing and keep the buffer. -/
def decode_step (rbuf : List Nat) : Option (Packet × List Nat) :=
  if HEADER_LENGTH < rbuf.length then
    if ds_frame_size rbuf ≤ rbuf.length then
      some ({ channel := rbuf.getD 0 0, flags := rbuf.getD 1 0,
              final_length := ds_final_length rbuf,
              payload := (rbuf.take (ds_frame_size rbuf)).drop (ds_header_size rbuf) },
            rbuf.drop (ds_frame_size rbuf))
    else none
  else none

/-- The decode loop, driven by fuel; each successful step removes at least
`HEADER_LENGTH` bytes, so `rbuf.length` is always enough fuel. -/
def decode_iter : Nat → List Nat → List Packet × List Nat
  | 0, rbuf => ([], rbuf)
  | fuel + 1, rbuf =>
    match decode_step rbuf with
    | some (p, rest) =>
      let r := decode_iter fuel rest
      (p :: r.1, r.2)
    | none => ([], rbuf)

/-- Decoding a buffered byte stream to completion: the packets produced by
the inner loop of `endpoint_reader` and the bytes left in the buffer. -/
def decode_all (rbuf : List Nat) : List Packet × List Nat :=
  decode_iter rbuf.length rbuf

/-- `endpoint_reader` reads the stream in chunks: each arriving chunk is
appended to the reassembly buffer and the inner loop then drains every
complete frame (mitm.rs lines 709-750). -/
def decode_chunks (chunks : List (List Nat)) : List Packet × List Nat :=
  chunks.foldl
    (fun acc chunk =>
      let r := decode_all (acc.2 ++ chunk)
      (acc.1 ++ r.1, r.2))
    ([], [])

/-- A single-frame logical message as the codec encodes it: channel byte,
`FIRST|LAST` flags, no final length, the payload. -/
def encode_message (m : Nat × List Nat) : List Nat :=
  Packet.transmit
    { channel := m.1, flags := Nat.lor FRAME_TYPE_FIRST FRAME_TYPE_LAST,
      final_length := none, payload := m.2 }

/-- A sequence of logical messages encoded back to back. -/
def encode_messages (msgs : List (Nat × List Nat)) : List Nat :=
  (msgs.map encode_message).flatten

/-! ## Transfer monitor (src/io_uring.rs) -/

/-- `Action` from config.rs. -/
inductive Action
  | Reconnect
  | Reboot
  | Stop
deriving Repr, DecidableEq

/-- One stall-window check of `transfer_monitor` (io_uring.rs lines 152-165).
`last` holds the counter values saved at the previous check, `cur` the
values loaded now; the deltas are computed as in the source
(`usize` subtraction; the counters are monotone) and the monitor fails with
"unexpected transfer stall" when either delta is zero, otherwise it saves
the current values. -/
def stall_step (last cur : Nat × Nat) : Option (Nat × Nat) :=
  let stall_usb_bytes_last := cur.1 - last.1
  let stall_tcp_bytes_last := cur.2 - last.2
  if stall_usb_bytes_last = 0 ∨ stall_tcp_bytes_last = 0 then none
  else some cur

/-- The stall checks of a whole session: `checks` lists the counter pair
loaded at each elapsed stall window, in order; the result is `none` as soon
as one check fails, and `some` of the last saved values otherwise. -/
def stall_run : (Nat × Nat) → List (Nat × Nat) → Option (Nat × Nat)
  | last, [] => some last
  | last, cur :: rest =>
    match stall_step last cur with
    | none => none
    | some saved => stall_run saved rest

/-- The pending-action check of `transfer_monitor` (io_uring.rs lines
167-175): given the shared-config action slot, return the slot contents
after the check together with the action carried by the failure, if any.
The slot is cleared only for `Reconnect`; any present action fails the
session. -/
def action_check : Option Action → Option Action × Option Action
  | none => (none, none)
  | some a => (if a = Action.Reconnect then none else some a, some a)

/-! ## Bluetooth bootstrap (src/bluetooth.rs) -/

/-- `HEADER_LEN` from bluetooth.rs: 2-byte length + 2-byte message id. -/
def HEADER_LEN : Nat := 4

/-- `MessageId` from bluetooth.rs with its `u16` discriminants. -/
inductive MessageId
  | WifiStartRequest
  | WifiInfoRequest
  | WifiInfoResponse
  | WifiVersionRequest
  | WifiVersionResponse
  | WifiConnectStatus
  | WifiStartResponse
deriving Repr, DecidableEq

/-- The `u16` value of each `MessageId` (bluetooth.rs lines 46-54). -/
def MessageId.code : MessageId → Nat
  | .WifiStartRequest => 1
  | .WifiInfoRequest => 2
  | .WifiInfoResponse => 3
  | .WifiVersionRequest => 4
  | .WifiVersionResponse => 5
  | .WifiConnectStatus => 6
  | .WifiStartResponse => 7

/-- `read_message` (bluetooth.rs lines 378-427), at the level of one received
frame: the 4-byte header gives `len` (the payload length; `read_exact` then
reads exactly `len` bytes) and the received `message_id`. A `message_id`
different from the expected one is only logged. When the expected message is
`WifiConnectStatus` and at least 2 payload bytes were read, a nonzero byte at
index 1 is a fatal error; every other case returns `Ok(HEADER_LEN + len)`. -/
def read_message (expected : MessageId) (message_id : Nat) (payload : List Nat) :
    Except String Nat :=
  let len := payload.length
  let _wrong_id := message_id ≠ expected.code
  if 0 < len then
    if expected = MessageId.WifiConnectStatus ∧ 2 ≤ len then
      if payload.getD 1 0 ≠ 0 then
        Except.error "phone cannot connect to our WiFi AP..."
      else Except.ok (HEADER_LEN + len)
    else Except.ok (HEADER_LEN + len)
  else Except.ok (HEADER_LEN + len)

/-! ## USB gadget controller (src/usb_gadget.rs) -/

/-- `DEFAULT_GADGET_NAME` from usb_gadget.rs. -/
def DEFAULT_GADGET_NAME : String := "default"

/-- `ACCESSORY_GADGET_NAME` from usb_gadget.rs. -/
def ACCESSORY_GADGET_NAME : String := "accessory"

/-- Observable effects of the USB role choreography: a sysfs write of the
UDC name to a gadget's `UDC` attribute, a clearing write, a wait on the
uevent signal recording whether it fired within the 3 s timeout, and a
sleep. -/
inductive UsbEvent
  | write_udc (gadget : String)
  | clear_udc (gadget : String)
  | wait_accessory (fired : Bool)
  | sleep_ms (ms : Nat)
deriving Repr, DecidableEq

/-- Attachment state of the two configfs gadgets: whether each gadget's
`UDC` attribute is currently non-empty (`UsbGadgetState::attached`). -/
structure GadgetState where
  default_attached : Bool
  accessory_attached : Bool
deriving Repr, DecidableEq

/-- Whether the named gadget is attached. -/
def GadgetState.attached (st : GadgetState) (gadget : String) : Bool :=
  if gadget = DEFAULT_GADGET_NAME then st.default_attached else st.accessory_attached

/-- Set the attachment bit of the named gadget. -/
def GadgetState.set_attached (st : GadgetState) (gadget : String) (b : Bool) : GadgetState :=
  if gadget = DEFAULT_GADGET_NAME then { st with default_attached := b }
  else { st with accessory_attached := b }

/-- `UsbGadgetState::enable` (usb_gadget.rs lines 142-156): write the UDC
name to the gadget's `UDC` attribute, but only if no UDC is currently
attached there. -/
def gadget_enable (st : GadgetState) (gadget : String) : GadgetState × List UsbEvent :=
  if st.attached gadget then (st, [])
  else (st.set_attached gadget true, [UsbEvent.write_udc gadget])

/-- `UsbGadgetState::disable` (usb_gadget.rs lines 158-172): clear the
gadget's `UDC` attribute, but only if a UDC is currently attached. -/
def gadget_disable (st : GadgetState) (gadget : String) : GadgetState × List UsbEvent :=
  if st.attached gadget then (st.set_attached gadget false, [UsbEvent.clear_udc gadget])
  else (st, [])

/-- The tail of `enable_default_and_wait_for_accessory` after the wait loop
(usb_gadget.rs lines 125-131): disable `default`, sleep 100 ms, enable
`accessory`. -/
def switch_to_accessory (st : GadgetState) (evs : List UsbEvent) :
    GadgetState × List UsbEvent :=
  let d := gadget_disable st DEFAULT_GADGET_NAME
  let e := gadget_enable d.1 ACCESSORY_GADGET_NAME
  (e.1, evs ++ d.2 ++ [UsbEvent.sleep_ms 100] ++ e.2)

/-- `UsbGadgetState::enable_default_and_wait_for_accessory` (usb_gadget.rs
lines 104-132). In legacy mode the `for _try in 1..=2` loop enables
`default` and waits up to 3 s for the uevent signal; `signal n` tells
whether the wait of attempt `n` fired in time. The loop breaks on a fired
signal and otherwise runs a second attempt; in either case execution then
falls through to disabling `default`, sleeping 100 ms and enabling
`accessory`. In non-legacy mode only `accessory` is enabled. -/
def enable_default_and_wait_for_accessory (legacy : Bool) (signal : Nat → Bool)
    (st : GadgetState) : GadgetState × List UsbEvent :=
  if legacy then
    let e1 := gadget_enable st DEFAULT_GADGET_NAME
    if signal 1 then
      switch_to_accessory e1.1 (e1.2 ++ [UsbEvent.wait_accessory true])
    else
      let e2 := gadget_enable e1.1 DEFAULT_GADGET_NAME
      switch_to_accessory e2.1
        (e1.2 ++ [UsbEvent.wait_accessory false] ++ e2.2 ++
          [UsbEvent.wait_accessory (signal 2)])
  else
    gadget_enable st ACCESSORY_GADGET_NAME

/-! ## Protobuf message model

Modelled from the spec: the protobuf schema (`src/protos/protos.proto`) is
generated at build time and is not part of the sources under `src/`; the
message structures, enums and accessor defaults below follow the
specification's data model (§3, §4.6). As in the generated Rust code, a
message-typed field is optional and reading through an absent field yields
the default instance; an enum accessor on an absent field yields the
enum's default (first) value. -/

/-- Modelled from the spec: `AudioStreamType`; the first value is the
accessor default and is not `AUDIO_STREAM_MEDIA` (a service without a
media sink is not a media sink). -/
inductive AudioStreamType
  | AUDIO_STREAM_GUIDANCE
  | AUDIO_STREAM_SYSTEM_AUDIO
  | AUDIO_STREAM_MEDIA
deriving Repr, DecidableEq

/-- Modelled from the spec: sensor types named by the rewriter. -/
inductive SensorType
  | SENSOR_SPEED
  | SENSOR_VEHICLE_ENERGY_MODEL_DATA
  | SENSOR_DRIVING_STATUS
deriving Repr, DecidableEq

/-- Modelled from the spec: fuel types (`FUEL_TYPE_ELECTRIC` is the one the
rewriter sets). -/
inductive FuelType
  | FUEL_TYPE_ELECTRIC
  | FUEL_TYPE_UNLEADED
deriving Repr, DecidableEq

/-- Modelled from the spec: EV connector types (`MENNEKES` is the default
the rewriter uses). -/
inductive EvConnectorType
  | EV_CONNECTOR_TYPE_MENNEKES
  | EV_CONNECTOR_TYPE_J1772
deriving Repr, DecidableEq

/-- Modelled from the spec: message status for sensor responses. -/
inductive MessageStatus
  | STATUS_SUCCESS
  | STATUS_FAILURE
deriving Repr, DecidableEq

/-- Modelled from the spec: navigation maneuver types; the first value is
the accessor default and is not `U_TURN_LEFT`. -/
inductive NavigationType
  | STRAIGHT
  | U_TURN_LEFT
  | U_TURN_RIGHT
deriving Repr, DecidableEq

/-- Modelled from the spec: `ByeByeReason`; `USER_SELECTION` is the reason
the rewriter compares against. -/
inductive ByeByeReason
  | USER_SELECTION
  | OTHER_REASON
deriving Repr, DecidableEq

/-- Modelled from the spec: one entry of `media_sink_service.video_configs`
with the `density` field the DPI override touches. -/
structure VideoConfig where
  density : Nat
deriving Repr, DecidableEq

/-- Modelled from the spec: one entry of `media_sink_service.audio_configs`
(its contents are irrelevant to the rewriter; only emptiness matters). -/
structure AudioConfig where
  sampling_rate : Nat
deriving Repr, DecidableEq

/-- Modelled from the spec: `MediaSinkService` with the fields the rewriter
reads or writes. -/
structure MediaSinkService where
  audio_type : Option AudioStreamType
  audio_configs : List AudioConfig
  video_configs : List VideoConfig
deriving Repr, DecidableEq

/-- Modelled from the spec: one sensor of `sensor_source_service.sensors`. -/
structure Sensor where
  sensor_type : SensorType
deriving Repr, DecidableEq

/-- Modelled from the spec: `SensorSourceService` with the fields the EV
feature pass writes. -/
structure SensorSourceService where
  sensors : List Sensor
  supported_fuel_types : List FuelType
  supported_ev_connector_types : List EvConnectorType
deriving Repr, DecidableEq

/-- Modelled from the spec: one advertised service of the
`ServiceDiscoveryResponse`; service sub-messages the rewriter only tests
for presence are modelled as `Option Nat`. -/
structure Service where
  id : Nat
  media_sink_service : Option MediaSinkService
  sensor_source_service : Option SensorSourceService
  navigation_status_service : Option Nat
  bluetooth_service : Option Nat
  wifi_projection_service : Option Nat
deriving Repr, DecidableEq

/-- Modelled from the spec: the `ServiceDiscoveryResponse` with the fields
the rewriter touches. -/
structure ServiceDiscoveryResponse where
  services : List Service
  make : String
  model : String
deriving Repr, DecidableEq

/-- The default `MediaSinkService` instance read through an absent field. -/
def MediaSinkService.empty : MediaSinkService :=
  { audio_type := none, audio_configs := [], video_configs := [] }

/-- The default `SensorSourceService` instance read through an absent
field. -/
def SensorSourceService.empty : SensorSourceService :=
  { sensors := [], supported_fuel_types := [], supported_ev_connector_types := [] }

/-- `svc.media_sink_service.audio_type()`: reading through the optional
message field, defaulting to the enum's first value. -/
def Service.audioType (svc : Service) : AudioStreamType :=
  ((svc.media_sink_service.getD MediaSinkService.empty).audio_type).getD
    AudioStreamType.AUDIO_STREAM_GUIDANCE

/-- `svc.media_sink_service.audio_configs` read through the optional
field. -/
def Service.audio_configs (svc : Service) : List AudioConfig :=
  (svc.media_sink_service.getD MediaSinkService.empty).audio_configs

/-- `svc.media_sink_service.video_configs` read through the optional
field. -/
def Service.video_configs (svc : Service) : List VideoConfig :=
  (svc.media_sink_service.getD MediaSinkService.empty).video_configs

/-- `svc.sensor_source_service.sensors` read through the optional field. -/
def Service.sensors (svc : Service) : List Sensor :=
  (svc.sensor_source_service.getD SensorSourceService.empty).sensors

/-- Modelled from the spec: messages of the sensor channel and the control
channel that the rewriter parses. -/
structure SensorRequest where
  type_ : SensorType
deriving Repr, DecidableEq

/-- Modelled from the spec: the sensor response the rewriter synthesises. -/
structure SensorResponse where
  status : MessageStatus
deriving Repr, DecidableEq

/-- Modelled from the spec: one entry of `SensorBatch.driving_status_data`. -/
structure DrivingStatusData where
  status : Int
deriving Repr, DecidableEq

/-- Modelled from the spec: the `SensorBatch` message. -/
structure SensorBatch where
  driving_status_data : List DrivingStatusData
deriving Repr, DecidableEq

/-- Modelled from the spec: a navigation maneuver. -/
structure NavigationManeuver where
  type_ : Option NavigationType
deriving Repr, DecidableEq

/-- Modelled from the spec: one navigation step. -/
structure NavigationStep where
  maneuver : Option NavigationManeuver
deriving Repr, DecidableEq

/-- Modelled from the spec: the `NavigationState` message with its repeated
`steps` field. -/
structure NavigationState where
  steps : List NavigationStep
deriving Repr, DecidableEq

/-- Modelled from the spec: the `ByeByeRequest` message. -/
structure ByeByeRequest where
  reason : Option ByeByeReason
deriving Repr, DecidableEq

/-- `step.maneuver.type_()`: reading through the two optional layers,
defaulting to the enum's first value. -/
def NavigationStep.maneuverType (step : NavigationStep) : NavigationType :=
  ((step.maneuver.getD { type_ := none }).type_).getD NavigationType.STRAIGHT

/-- Modelled from the spec: the `u16` codes of `SensorMessageId`. -/
def SENSOR_MESSAGE_REQUEST_CODE : Nat := 32769

/-- Modelled from the spec: the `u16` code of `SENSOR_MESSAGE_RESPONSE`. -/
def SENSOR_MESSAGE_RESPONSE_CODE : Nat := 32770

/-- Modelled from the spec: the `u16` code of `SENSOR_MESSAGE_BATCH`. -/
def SENSOR_MESSAGE_BATCH_CODE : Nat := 32771

/-- `SensorMessageId` as dispatched by the sensor-channel branch. -/
inductive SensorMessageId
  | SENSOR_MESSAGE_REQUEST
  | SENSOR_MESSAGE_RESPONSE
  | SENSOR_MESSAGE_BATCH
  | SENSOR_MESSAGE_ERROR
deriving Repr, DecidableEq

/-- `SensorMessageId::from_i32`. -/
def sensorMessageIdFromI32 (n : Nat) : Option SensorMessageId :=
  if n = SENSOR_MESSAGE_REQUEST_CODE then some SensorMessageId.SENSOR_MESSAGE_REQUEST
  else if n = SENSOR_MESSAGE_RESPONSE_CODE then some SensorMessageId.SENSOR_MESSAGE_RESPONSE
  else if n = SENSOR_MESSAGE_BATCH_CODE then some SensorMessageId.SENSOR_MESSAGE_BATCH
  else none

/-- Modelled from the spec: the `u16` code of `MESSAGE_BYEBYE_REQUEST`. -/
def MESSAGE_BYEBYE_REQUEST_CODE : Nat := 15

/-- Modelled from the spec: the `u16` code of
`MESSAGE_SERVICE_DISCOVERY_RESPONSE`. -/
def MESSAGE_SERVICE_DISCOVERY_RESPONSE_CODE : Nat := 6

/-- `ControlMessageType` restricted to the values the rewriter dispatches
on; everything else behaves like `MESSAGE_UNEXPECTED_MESSAGE`. -/
inductive ControlMessageType
  | MESSAGE_BYEBYE_REQUEST
  | MESSAGE_SERVICE_DISCOVERY_RESPONSE
  | MESSAGE_UNEXPECTED_MESSAGE
deriving Repr, DecidableEq

/-- `ControlMessageType::from_i32`, collapsed to the dispatched values. -/
def controlMessageTypeFromI32 (n : Nat) : Option ControlMessageType :=
  if n = MESSAGE_BYEBYE_REQUEST_CODE then some ControlMessageType.MESSAGE_BYEBYE_REQUEST
  else if n = MESSAGE_SERVICE_DISCOVERY_RESPONSE_CODE then
    some ControlMessageType.MESSAGE_SERVICE_DISCOVERY_RESPONSE
  else some ControlMessageType.MESSAGE_UNEXPECTED_MESSAGE

/-- Modelled from the spec: the protobuf wire codec used by the rewriter
(`parse_from_bytes` / `write_to_bytes` of the generated library). The
rewriter is verified for every codec; witnesses instantiate a concrete
one. -/
structure ProtoCodec where
  parseSensorRequest : List Nat → Option SensorRequest
  writeSensorResponse : SensorResponse → List Nat
  parseSensorBatch : List Nat → Option SensorBatch
  writeSensorBatch : SensorBatch → List Nat
  parseNavigationState : List Nat → Option NavigationState
  writeNavigationState : NavigationState → List Nat
  parseByeByeRequest : List Nat → Option ByeByeRequest
  parseServiceDiscoveryResponse : List Nat → Option ServiceDiscoveryResponse
  writeServiceDiscoveryResponse : ServiceDiscoveryResponse → List Nat

/-- The configuration snapshot fields that `pkt_modify_hook` reads
(`AppConfig` in config.rs); `ev_connector_types` is kept as the parsed
connector list. -/
structure AppConfig where
  dpi : Nat := 0
  remove_tap_restriction : Bool := false
  video_in_motion : Bool := false
  disable_media_sink : Bool := false
  disable_tts_sink : Bool := false
  developer_mode : Bool := false
  ev : Bool := false
  remove_bluetooth : Bool := false
  remove_wifi : Bool := false
  stop_on_disconnect : Bool := false
  waze_lht_workaround : Bool := false
  ev_battery_logger : Option String := none
  ev_connector_types : Option (List EvConnectorType) := none
deriving Repr, DecidableEq

/-! ## The ServiceDiscoveryResponse rewrite (mitm.rs lines 403-609) -/

/-- `iter_mut().find(..)` followed by an in-place mutation: rewrite the
first element satisfying `p`, leave the rest unchanged. -/
def modify_first {α : Type} (p : α → Bool) (f : α → α) : List α → List α
  | [] => []
  | x :: xs => if p x then f x :: xs else x :: modify_first p f xs

/-- Match of the DPI pass (mitm.rs line 425): the first service whose
`media_sink_service.video_configs` is non-empty. -/
def dpi_match (svc : Service) : Bool :=
  !svc.video_configs.isEmpty

/-- Update of the DPI pass (mitm.rs lines 428-431): set
`video_configs[0].density` to the configured DPI. -/
def dpi_update (dpi : Nat) (svc : Service) : Service :=
  { svc with media_sink_service :=
      svc.media_sink_service.map (fun m =>
        { m with video_configs :=
            match m.video_configs with
            | [] => []
            | c :: rest => { c with density := dpi } :: rest }) }

/-- Match of the TTS-sink pass (mitm.rs lines 444-447): non-empty
`audio_configs` and `audio_type == AUDIO_STREAM_GUIDANCE`. -/
def tts_sink_match (svc : Service) : Bool :=
  !svc.audio_configs.isEmpty &&
    decide (svc.audioType = AudioStreamType.AUDIO_STREAM_GUIDANCE)

/-- Update of the TTS-sink pass (mitm.rs lines 448-451): set the audio type
to `AUDIO_STREAM_SYSTEM_AUDIO`. -/
def tts_sink_update (svc : Service) : Service :=
  { svc with media_sink_service :=
      svc.media_sink_service.map (fun m =>
        { m with audio_type := some AudioStreamType.AUDIO_STREAM_SYSTEM_AUDIO }) }

/-- The `while let Some(svc) = ... find(..)` loop of the TTS-sink pass,
driven by fuel; every iteration turns the first matching service into a
non-matching one, so the number of matches strictly decreases and
`svcs.length` fuel always suffices. -/
def tts_disable_iter : Nat → List Service → List Service
  | 0, svcs => svcs
  | fuel + 1, svcs =>
    if svcs.any tts_sink_match then
      tts_disable_iter fuel (modify_first tts_sink_match tts_sink_update svcs)
    else svcs

/-- The TTS-sink pass run to completion. -/
def tts_disable (svcs : List Service) : List Service :=
  tts_disable_iter svcs.length svcs

/-- Match of the sensor-bearing-service searches (capture, tap restriction,
EV features): non-empty `sensor_source_service.sensors`. -/
def sensors_match (svc : Service) : Bool :=
  !svc.sensors.isEmpty

/-- Update of the tap-restriction pass (mitm.rs lines 517-521): drop
sensors of type `SENSOR_SPEED`. -/
def tap_update (svc : Service) : Service :=
  { svc with sensor_source_service :=
      svc.sensor_source_service.map (fun s =>
        { s with sensors :=
            s.sensors.filter (fun sn =>
              decide (sn.sensor_type ≠ SensorType.SENSOR_SPEED)) }) }

/-- The connector list of the EV pass (mitm.rs lines 574-584): the
configured list, defaulting to `[EV_CONNECTOR_TYPE_MENNEKES]`. -/
def ev_connectors (cfg : AppConfig) : List EvConnectorType :=
  match cfg.ev_connector_types with
  | some types => types
  | none => [EvConnectorType.EV_CONNECTOR_TYPE_MENNEKES]

/-- Update of the EV pass (mitm.rs lines 558-594): append a
`SENSOR_VEHICLE_ENERGY_MODEL_DATA` sensor, set the supported fuel types to
`[FUEL_TYPE_ELECTRIC]` and the supported connector types to the configured
list. -/
def ev_update (cfg : AppConfig) (svc : Service) : Service :=
  { svc with sensor_source_service :=
      svc.sensor_source_service.map (fun s =>
        { s with
            sensors := s.sensors ++ [{ sensor_type := SensorType.SENSOR_VEHICLE_ENERGY_MODEL_DATA }],
            supported_fuel_types := [FuelType.FUEL_TYPE_ELECTRIC],
            supported_ev_connector_types := ev_connectors cfg }) }

/-- The outcome of the `MESSAGE_SERVICE_DISCOVERY_RESPONSE` branch: the
rewritten message, and the sensor and navigation channel ids captured by
this invocation (if their enabling toggles are set and a matching service
was found). -/
structure SdrOutcome where
  msg : ServiceDiscoveryResponse
  sensor_channel : Option Nat
  nav_channel : Option Nat
deriving Repr, DecidableEq

/-- The DPI pass (mitm.rs lines 421-440), guarded by `cfg.dpi > 0`. -/
def sdr_pass_dpi (cfg : AppConfig) (l : List Service) : List Service :=
  if 0 < cfg.dpi then modify_first dpi_match (dpi_update cfg.dpi) l else l

/-- The TTS-sink pass (mitm.rs lines 443-458), guarded by
`cfg.disable_tts_sink`. -/
def sdr_pass_tts (cfg : AppConfig) (l : List Service) : List Service :=
  if cfg.disable_tts_sink then tts_disable l else l

/-- The retain predicate of the media-sink pass (mitm.rs line 463). -/
def media_sink_keep (svc : Service) : Bool :=
  decide (svc.audioType ≠ AudioStreamType.AUDIO_STREAM_MEDIA)

/-- The media-sink pass (mitm.rs lines 461-469), guarded by
`cfg.disable_media_sink`. -/
def sdr_pass_media (cfg : AppConfig) (l : List Service) : List Service :=
  if cfg.disable_media_sink then l.filter media_sink_keep else l

/-- The tap-restriction pass (mitm.rs lines 511-523). -/
def sdr_pass_tap (cfg : AppConfig) (l : List Service) : List Service :=
  if cfg.remove_tap_restriction then modify_first sensors_match tap_update l else l

/-- The Bluetooth strip pass (mitm.rs lines 536-538). -/
def sdr_pass_bt (cfg : AppConfig) (l : List Service) : List Service :=
  if cfg.remove_bluetooth then l.filter (fun svc => svc.bluetooth_service.isNone) else l

/-- The Wi-Fi strip pass (mitm.rs lines 540-543). -/
def sdr_pass_wifi (cfg : AppConfig) (l : List Service) : List Service :=
  if cfg.remove_wifi then l.filter (fun svc => svc.wifi_projection_service.isNone) else l

/-- The EV features pass (mitm.rs lines 546-596). -/
def sdr_pass_ev (cfg : AppConfig) (l : List Service) : List Service :=
  if cfg.ev then modify_first sensors_match (ev_update cfg) l else l

/-- The `MESSAGE_SERVICE_DISCOVERY_RESPONSE` rewrite of `pkt_modify_hook`
(mitm.rs lines 403-609), pass by pass in source order: DPI override, TTS
sink disable, media sink disable, then the sensor and navigation channel
captures (which therefore see the filtered list), then tap-restriction
removal, developer mode, Bluetooth strip, Wi-Fi strip, EV features.
Captured channel ids are narrowed to a byte (`svc.id() as u8`). -/
def sdr_modify (cfg : AppConfig) (msg0 : ServiceDiscoveryResponse) : SdrOutcome :=
  let s3 := sdr_pass_media cfg (sdr_pass_tts cfg (sdr_pass_dpi cfg msg0.services))
  let sensor_ch :=
    if cfg.ev || cfg.video_in_motion then
      (s3.find? sensors_match).map (fun svc => svc.id % 256)
    else none
  let nav_ch :=
    if cfg.waze_lht_workaround then
      (s3.find? (fun svc => svc.navigation_status_service.isSome)).map (fun svc => svc.id % 256)
    else none
  { msg := { services := sdr_pass_ev cfg (sdr_pass_wifi cfg (sdr_pass_bt cfg (sdr_pass_tap cfg s3))),
             make := if cfg.developer_mode then "Google" else msg0.make,
             model := if cfg.developer_mode then "Desktop Head Unit" else msg0.model },
    sensor_channel := sensor_ch, nav_channel := nav_ch }

/-! ## The packet modification hook (mitm.rs lines 268-614) -/

/-- `ProxyType` from mitm.rs. -/
inductive ProxyType
  | HeadUnit
  | MobileDevice
deriving Repr, DecidableEq

/-- `ModifyContext` from mitm.rs (the EV task channel is modelled by the
`ev_start` field of the hook result). -/
structure ModifyContext where
  sensor_channel : Option Nat
  nav_channel : Option Nat
deriving Repr, DecidableEq

/-- Everything `pkt_modify_hook` produces or writes: the returned
`handled` boolean, the (possibly replaced or rewritten) packet, the
updated `ModifyContext`, the shared sensor-channel slot used by the HTTP
EV endpoint, the shared-config `action_requested` slot, and the EV
battery-logger command sent on the EV task channel, if any. -/
structure HookResult where
  handled : Bool
  pkt : Packet
  ctx : ModifyContext
  sensor_channel_slot : Option Nat
  action_requested : Option Action
  ev_start : Option String
deriving Repr, DecidableEq

/-- A hook result that leaves everything unchanged and reports
`Ok(false)`. -/
def hook_unchanged (pkt : Packet) (ctx : ModifyContext) (slot : Option Nat)
    (action0 : Option Action) : HookResult :=
  { handled := false, pkt := pkt, ctx := ctx, sensor_channel_slot := slot,
    action_requested := action0, ev_start := none }

/-- The sensor-channel branch of `pkt_modify_hook` (mitm.rs lines 286-341),
entered when the learned sensor channel equals the packet's channel; every
path through it returns (no panic is possible here). -/
def sensor_channel_branch (codec : ProtoCodec) (pkt : Packet) (ch : Nat)
    (ctx : ModifyContext) (slot : Option Nat) (cfg : AppConfig)
    (action0 : Option Action) (message_id : Nat) (data : List Nat) : HookResult :=
  match (sensorMessageIdFromI32 message_id).getD SensorMessageId.SENSOR_MESSAGE_ERROR with
  | SensorMessageId.SENSOR_MESSAGE_REQUEST =>
    match codec.parseSensorRequest data with
    | some msg =>
      if msg.type_ = SensorType.SENSOR_VEHICLE_ENERGY_MODEL_DATA then
        let response : SensorResponse := { status := MessageStatus.STATUS_SUCCESS }
        let payload :=
          (SENSOR_MESSAGE_RESPONSE_CODE / 256) % 256 ::
            SENSOR_MESSAGE_RESPONSE_CODE % 256 :: codec.writeSensorResponse response
        let reply : Packet :=
          { channel := ch,
            flags := Nat.lor ENCRYPTED (Nat.lor FRAME_TYPE_FIRST FRAME_TYPE_LAST),
            final_length := none, payload := payload }
        { handled := true, pkt := reply, ctx := ctx, sensor_channel_slot := slot,
          action_requested := action0, ev_start := cfg.ev_battery_logger }
      else hook_unchanged pkt ctx slot action0
    | none => hook_unchanged pkt ctx slot action0
  | SensorMessageId.SENSOR_MESSAGE_BATCH =>
    match codec.parseSensorBatch data with
    | some msg =>
      if cfg.video_in_motion then
        if msg.driving_status_data.isEmpty then hook_unchanged pkt ctx slot action0
        else
          let msg' : SensorBatch :=
            { driving_status_data :=
                match msg.driving_status_data with
                | [] => []
                | d :: rest => { d with status := 0 } :: rest }
          let payload :=
            (message_id / 256) % 256 :: message_id % 256 :: codec.writeSensorBatch msg'
          hook_unchanged { pkt with payload := payload } ctx slot action0
      else hook_unchanged pkt ctx slot action0
    | none => hook_unchanged pkt ctx slot action0
  | _ => hook_unchanged pkt ctx slot action0

/-- The body of the navigation-fingerprint branch (mitm.rs lines 353-372),
reached when the fingerprint `{0x80, 0x06, 0x0A}` matched. `none` models a
panic: `msg.steps[0]` on an empty `steps` list, or the
`maneuver.as_mut().unwrap()` on an absent maneuver. -/
def nav_fingerprint_body (codec : ProtoCodec) (pkt : Packet) (ctx : ModifyContext)
    (slot : Option Nat) (action0 : Option Action) (message_id : Nat)
    (data : List Nat) : Option HookResult :=
  match codec.parseNavigationState data with
  | some msg =>
    match msg.steps.head? with
    | none => none
    | some step0 =>
      if step0.maneuverType = NavigationType.U_TURN_LEFT then
        match step0.maneuver with
        | none => none
        | some man =>
          let msg' : NavigationState :=
            { msg with steps :=
                { step0 with maneuver := some { man with type_ := some NavigationType.U_TURN_RIGHT } }
                  :: msg.steps.tail }
          let payload :=
            (message_id / 256) % 256 :: message_id % 256 :: codec.writeNavigationState msg'
          some (hook_unchanged { pkt with payload := payload } ctx slot action0)
      else some (hook_unchanged pkt ctx slot action0)
  | none => some (hook_unchanged pkt ctx slot action0)

/-- The control-channel dispatch of `pkt_modify_hook` (mitm.rs lines
378-613): anything off channel 0 is left alone; `MESSAGE_BYEBYE_REQUEST`
may record a `Stop` action; `MESSAGE_SERVICE_DISCOVERY_RESPONSE` from the
head unit is rewritten via `sdr_modify` and the captured channel ids are
stored in the context (and, for the sensor channel, in the shared slot)
only when a capture happened. -/
def control_channel_branch (codec : ProtoCodec) (proxy_type : ProxyType)
    (pkt : Packet) (ctx : ModifyContext) (slot : Option Nat) (cfg : AppConfig)
    (action0 : Option Action) (message_id : Nat) (data : List Nat) : HookResult :=
  if pkt.channel ≠ 0 then hook_unchanged pkt ctx slot action0
  else
    match (controlMessageTypeFromI32 message_id).getD
        ControlMessageType.MESSAGE_UNEXPECTED_MESSAGE with
    | ControlMessageType.MESSAGE_BYEBYE_REQUEST =>
      if cfg.stop_on_disconnect ∧ proxy_type = ProxyType.MobileDevice then
        match codec.parseByeByeRequest data with
        | some msg =>
          if msg.reason.getD ByeByeReason.OTHER_REASON = ByeByeReason.USER_SELECTION then
            { hook_unchanged pkt ctx slot action0 with action_requested := some Action.Stop }
          else hook_unchanged pkt ctx slot action0
        | none => hook_unchanged pkt ctx slot action0
      else hook_unchanged pkt ctx slot action0
    | ControlMessageType.MESSAGE_SERVICE_DISCOVERY_RESPONSE =>
      if proxy_type = ProxyType.MobileDevice then hook_unchanged pkt ctx slot action0
      else
        match codec.parseServiceDiscoveryResponse data with
        | none => hook_unchanged pkt ctx slot action0
        | some msg =>
          let o := sdr_modify cfg msg
          let ctx' : ModifyContext :=
            { sensor_channel :=
                match o.sensor_channel with
                | some v => some v
                | none => ctx.sensor_channel,
              nav_channel :=
                match o.nav_channel with
                | some v => some v
                | none => ctx.nav_channel }
          let slot' :=
            match o.sensor_channel with
            | some v => some v
            | none => slot
          let payload :=
            (message_id / 256) % 256 :: message_id % 256 ::
              codec.writeServiceDiscoveryResponse o.msg
          { handled := false, pkt := { pkt with payload := payload }, ctx := ctx',
            sensor_channel_slot := slot', action_requested := action0, ev_start := none }
    | _ => hook_unchanged pkt ctx slot action0

/-- The navigation-channel check and fall-through of `pkt_modify_hook`
(mitm.rs lines 344-376): on the learned navigation channel, head-unit side,
the fixed header fingerprint is tested with the source's short-circuit
order; `pkt.payload[2]` is indexed without a bounds check, so a matching
2-byte payload panics (`none`). Any non-matching packet falls through to
the control-channel dispatch. -/
def nav_and_control (codec : ProtoCodec) (proxy_type : ProxyType) (pkt : Packet)
    (ctx : ModifyContext) (slot : Option Nat) (cfg : AppConfig)
    (action0 : Option Action) (message_id : Nat) (data : List Nat) : Option HookResult :=
  match ctx.nav_channel with
  | some ch =>
    if ch = pkt.channel ∧ proxy_type = ProxyType.HeadUnit then
      if pkt.payload.getD 0 0 = 128 then
        if pkt.payload.getD 1 0 = 6 then
          match pkt.payload.get? 2 with
          | none => none
          | some b2 =>
            if b2 = 10 then nav_fingerprint_body codec pkt ctx slot action0 message_id data
            else some (control_channel_branch codec proxy_type pkt ctx slot cfg action0
                message_id data)
        else some (control_channel_branch codec proxy_type pkt ctx slot cfg action0
            message_id data)
      else some (control_channel_branch codec proxy_type pkt ctx slot cfg action0
          message_id data)
    else some (control_channel_branch codec proxy_type pkt ctx slot cfg action0
        message_id data)
  | none =>
    some (control_channel_branch codec proxy_type pkt ctx slot cfg action0 message_id data)

/-- `pkt_modify_hook` (mitm.rs lines 268-614). Payloads shorter than 2
bytes bail out unchanged; otherwise the big-endian message id is read from
the first two payload bytes and the sensor-channel, navigation-channel and
control-channel branches run in source order. The result is `none` exactly
when the source would panic. -/
def pkt_modify_hook (codec : ProtoCodec) (proxy_type : ProxyType) (pkt : Packet)
    (ctx : ModifyContext) (slot : Option Nat) (cfg : AppConfig)
    (action0 : Option Action) : Option HookResult :=
  if pkt.payload.length < 2 then some (hook_unchanged pkt ctx slot action0)
  else
    let message_id := pkt.payload.getD 0 0 * 256 + pkt.payload.getD 1 0
    let data := pkt.payload.drop 2
    match ctx.sensor_channel with
    | some ch =>
      if ch = pkt.channel then
        some (sensor_channel_branch codec pkt ch ctx slot cfg action0 message_id data)
      else nav_and_control codec proxy_type pkt ctx slot cfg action0 message_id data
    | none => nav_and_control codec proxy_type pkt ctx slot cfg action0 message_id data

/-! ## Relations used to track the ServiceDiscoveryResponse passes -/

/-- What the passes running before the channel captures (DPI, TTS) preserve
of each service: its id, its sensor list, and whether its audio type is
`AUDIO_STREAM_MEDIA`. -/
def SvcPre (a b : Service) : Prop :=
  a.id = b.id ∧ Service.sensors a = Service.sensors b ∧
    (Service.audioType a = AudioStreamType.AUDIO_STREAM_MEDIA ↔
      Service.audioType b = AudioStreamType.AUDIO_STREAM_MEDIA)

/-- What the sensor-list passes (tap restriction, EV features) preserve of
each service: its id and its audio type. -/
def SvcTap (a b : Service) : Prop :=
  a.id = b.id ∧ Service.audioType a = Service.audioType b

/-! ## Concrete witnesses -/

/-- A concrete protobuf codec instance used by witnesses and
counterexamples: a minimal encoding of the messages the rewriter parses. -/
def witness_codec : ProtoCodec where
  parseSensorRequest := fun data =>
    match data with
    | [0] => some { type_ := SensorType.SENSOR_SPEED }
    | [1] => some { type_ := SensorType.SENSOR_VEHICLE_ENERGY_MODEL_DATA }
    | _ => none
  writeSensorResponse := fun r =>
    match r.status with
    | MessageStatus.STATUS_SUCCESS => [1]
    | MessageStatus.STATUS_FAILURE => [0]
  parseSensorBatch := fun _ => none
  writeSensorBatch := fun _ => []
  parseNavigationState := fun _ => none
  writeNavigationState := fun _ => []
  parseByeByeRequest := fun _ => none
  parseServiceDiscoveryResponse := fun data =>
    if data = [7] then
      some { services :=
               [{ id := 3, media_sink_service := none,
                  sensor_source_service :=
                    some { sensors := [{ sensor_type := SensorType.SENSOR_SPEED }],
                           supported_fuel_types := [],
                           supported_ev_connector_types := [] },
                  navigation_status_service := none, bluetooth_service := none,
                  wifi_projection_service := none }],
             make := "Car", model := "HU" }
    else none
  writeServiceDiscoveryResponse := fun _ => []

/-- The input message of the C6 counterexample: the first service with
non-empty sensors (id 1) is a media sink, the second (id 2) is not. -/
def sensor_capture_cex_msg : ServiceDiscoveryResponse :=
  { services :=
      [{ id := 1,
         media_sink_service :=
           some { audio_type := some AudioStreamType.AUDIO_STREAM_MEDIA,
                  audio_configs := [], video_configs := [] },
         sensor_source_service :=
           some { sensors := [{ sensor_type := SensorType.SENSOR_SPEED }],
                  supported_fuel_types := [], supported_ev_connector_types := [] },
         navigation_status_service := none, bluetooth_service := none,
         wifi_projection_service := none },
       { id := 2, media_sink_service := none,
         sensor_source_service :=
           some { sensors := [{ sensor_type := SensorType.SENSOR_SPEED }],
                  supported_fuel_types := [], supported_ev_connector_types := [] },
         navigation_status_service := none, bluetooth_service := none,
         wifi_projection_service := none }],
    make := "Car", model := "HU" }

/-- A codec whose ServiceDiscoveryResponse parse returns the C6
counterexample message. -/
def sensor_capture_cex_codec : ProtoCodec :=
  { witness_codec with
    parseServiceDiscoveryResponse := fun data =>
      if data = [9] then some sensor_capture_cex_msg else none }

/-- The control-channel packet carrying the C6 counterexample message
(message id 6 = MESSAGE_SERVICE_DISCOVERY_RESPONSE, body `[9]`). -/
def sensor_capture_cex_pkt : Packet :=
  { channel := 0, flags := 0, final_length := none, payload := [0, 6, 9] }

/-- The configuration of the C6 counterexample: EV features on (so the
sensor channel is captured) and the media sink disabled. -/
def sensor_capture_cex_cfg : AppConfig :=
  { ev := true, disable_media_sink := true }

/-- The non-media service of the C7 counterexample: it advertises a
Bluetooth service and no media sink. -/
def media_disable_cex_svc : Service :=
  { id := 1, media_sink_service := none, sensor_source_service := none,
    navigation_status_service := none, bluetooth_service := some 0,
    wifi_projection_service := none }

/-- The input message of the C7 counterexample. -/
def media_disable_cex_msg : ServiceDiscoveryResponse :=
  { services := [media_disable_cex_svc], make := "Car", model := "HU" }

/-- The configuration of the C7 counterexample: media sink disabled
together with the Bluetooth strip. -/
def media_disable_cex_cfg : AppConfig :=
  { disable_media_sink := true, remove_bluetooth := true }

/-! ## Lemmas on the frame codec -/

theorem decode_step_nil : decode_step [] = none := rfl

theorem decode_step_length {rbuf : List Nat} {p : Packet} {rest : List Nat}
    (h : decode_step rbuf = some (p, rest)) :
    rest.length + HEADER_LENGTH ≤ rbuf.length := by
  unfold decode_step at h
  split at h
  case isTrue h1 =>
    split at h
    case isTrue h2 =>
      have hpair := Option.some.inj h
      have hrest : rbuf.drop (ds_frame_size rbuf) = rest := congrArg Prod.snd hpair
      have hhdr : HEADER_LENGTH ≤ ds_header_size rbuf := by
        unfold ds_header_size
        split <;> omega
      have hfseq : ds_frame_size rbuf = ds_header_size rbuf + ds_payload_size rbuf := rfl
      have hlen : rest.length = rbuf.length - ds_frame_size rbuf := by
        rw [← hrest, List.length_drop]
      omega
    case isFalse _ => simp at h
  case isFalse _ => simp at h

theorem decode_iter_nil (fuel : Nat) : decode_iter fuel [] = ([], []) := by
  cases fuel with
  | zero => rfl
  | succ n => simp [decode_iter, decode_step_nil]

theorem decode_iter_congr :
    ∀ (fuel₁ fuel₂ : Nat) (rbuf : List Nat),
      rbuf.length ≤ fuel₁ → rbuf.length ≤ fuel₂ →
      decode_iter fuel₁ rbuf = decode_iter fuel₂ rbuf := by
  intro fuel₁
  induction fuel₁ with
  | zero =>
    intro fuel₂ rbuf h1 _
    have : rbuf = [] := List.length_eq_zero.mp (Nat.le_zero.mp h1)
    subst this
    rw [decode_iter_nil, decode_iter_nil]
  | succ n ih =>
    intro fuel₂ rbuf h1 h2
    cases fuel₂ with
    | zero =>
      have : rbuf = [] := List.length_eq_zero.mp (Nat.le_zero.mp h2)
      subst this
      rw [decode_iter_nil, decode_iter_nil]
    | succ m =>
      simp only [decode_iter]
      cases hstep : decode_step rbuf with
      | none => rfl
      | some pr =>
        obtain ⟨p, rest⟩ := pr
        have hlen := decode_step_length hstep
        simp only [HEADER_LENGTH] at hlen
        have := ih m rest (by omega) (by omega)
        simp [this]

theorem decode_all_cons {rbuf rest : List Nat} {p : Packet}
    (h : decode_step rbuf = some (p, rest)) :
    decode_all rbuf = (p :: (decode_all rest).1, (decode_all rest).2) := by
  have hlen := decode_step_length h
  simp only [HEADER_LENGTH] at hlen
  unfold decode_all
  obtain ⟨n, hn⟩ : ∃ n, rbuf.length = n + 1 := ⟨rbuf.length - 1, by omega⟩
  rw [hn]
  simp only [decode_iter, h]
  rw [decode_iter_congr n rest.length rest (by omega) (by omega)]

theorem encode_message_eq (c : Nat) (p : List Nat) (hp : p.length < 65536) :
    encode_message (c, p) = c :: 3 :: (p.length / 256) :: (p.length % 256) :: p := by
  have hdiv : p.length / 256 < 256 := by omega
  unfold encode_message Packet.transmit
  simp [Nat.mod_eq_of_lt hp, Nat.mod_eq_of_lt hdiv,
    Nat.mod_eq_of_lt (Nat.lt_of_le_of_lt (Nat.mod_le _ _) hp)]
  rfl

theorem decode_step_single (c : Nat) (p rest : List Nat) (hp : p.length < 65536)
    (hne : p.length + rest.length ≠ 0) :
    decode_step (encode_message (c, p) ++ rest) =
      some ({ channel := c, flags := 3, final_length := none, payload := p }, rest) := by
  rw [encode_message_eq c p hp]
  have hblen : ((c :: 3 :: (p.length / 256) :: (p.length % 256) :: p) ++ rest).length
      = 4 + p.length + rest.length := by
    simp
    omega
  have hfc : ds_first_cont ((c :: 3 :: (p.length / 256) :: (p.length % 256) :: p) ++ rest)
      = false := by
    have h3 : Nat.land 3 FRAME_TYPE_MASK ≠ FRAME_TYPE_FIRST := by decide
    unfold ds_first_cont
    have hget1 : ((c :: 3 :: (p.length / 256) :: (p.length % 256) :: p) ++ rest).getD 1 0
        = 3 := rfl
    rw [hget1]
    simp [h3]
  have hps : ds_payload_size ((c :: 3 :: (p.length / 256) :: (p.length % 256) :: p) ++ rest)
      = p.length := by
    have hget2 : ((c :: 3 :: (p.length / 256) :: (p.length % 256) :: p) ++ rest).getD 2 0
        = p.length / 256 := rfl
    have hget3 : ((c :: 3 :: (p.length / 256) :: (p.length % 256) :: p) ++ rest).getD 3 0
        = p.length % 256 := rfl
    unfold ds_payload_size
    rw [hget2, hget3]
    omega
  have hhs : ds_header_size ((c :: 3 :: (p.length / 256) :: (p.length % 256) :: p) ++ rest)
      = 4 := by
    unfold ds_header_size
    rw [hfc]
    simp [HEADER_LENGTH]
  have hfl : ds_final_length ((c :: 3 :: (p.length / 256) :: (p.length % 256) :: p) ++ rest)
      = none := by
    unfold ds_final_length
    rw [hfc]
    simp
  have hfs : ds_frame_size ((c :: 3 :: (p.length / 256) :: (p.length % 256) :: p) ++ rest)
      = 4 + p.length := by
    unfold ds_frame_size
    rw [hhs, hps]
  have htake : ((c :: 3 :: (p.length / 256) :: (p.length % 256) :: p) ++ rest).take
      (4 + p.length) = c :: 3 :: (p.length / 256) :: (p.length % 256) :: p :=
    List.take_left' (by simp; omega)
  have hdropfs : ((c :: 3 :: (p.length / 256) :: (p.length % 256) :: p) ++ rest).drop
      (4 + p.length) = rest :=
    List.drop_left' (by simp; omega)
  unfold decode_step
  rw [hfs, hfl, hhs, hblen, htake, hdropfs]
  rw [if_pos (by simp [HEADER_LENGTH]; omega), if_pos (by omega)]
  rfl

theorem encode_message_length (c : Nat) (p : List Nat) :
    (encode_message (c, p)).length = 4 + p.length := by
  unfold encode_message Packet.transmit
  simp
  omega

theorem encode_messages_cons (m : Nat × List Nat) (msgs : List (Nat × List Nat)) :
    encode_messages (m :: msgs) = encode_message m ++ encode_messages msgs := by
  simp [encode_messages]

/-- C1 counterexample: a single message with an empty payload encodes to the
4-byte frame `[0, 3, 0, 0]`, but the decode loop of `endpoint_reader` only
parses a header once strictly more than 4 bytes are buffered, so the
decoded sequence is empty and the round trip of the claim fails. -/
theorem framing_round_trip_cex :
    decode_all (encode_messages [(0, [])]) ≠
      ([{ channel := 0, flags := 3, final_length := none, payload := ([] : List Nat) }], []) := by
  decide

/-- C1 (amended): for every sequence of logical messages with payload sizes
in the claimed set and channels that are bytes, encoding each message as a
single `FIRST|LAST` frame via `Packet::transmit` and feeding the
concatenated byte stream to the decode loop of `endpoint_reader` yields
exactly the original sequence of payloads and channel IDs — provided the
final message of the sequence has a non-empty payload (a trailing
zero-length frame stays in the buffer because the decoder requires strictly
more than `HEADER_LENGTH` buffered bytes). -/
theorem framing_round_trip (msgs : List (Nat × List Nat))
    (hch : ∀ m ∈ msgs, m.1 < 256)
    (hsz : ∀ m ∈ msgs, m.2.length = 0 ∨ m.2.length = 1 ∨ m.2.length = 2 ∨
      m.2.length = 15 ∨ m.2.length = 16 ∨ m.2.length = 16383 ∨ m.2.length = 16384)
    (hlast : ∀ m, msgs.getLast? = some m → m.2 ≠ []) :
    decode_all (encode_messages msgs) =
      (msgs.map (fun m =>
        ({ channel := m.1, flags := 3, final_length := none, payload := m.2 } : Packet)), []) := by
  induction msgs with
  | nil => rfl
  | cons m msgs ih =>
    have hp : m.2.length < 65536 := by
      rcases hsz m (by simp) with h | h | h | h | h | h | h <;> omega
    rw [encode_messages_cons]
    cases msgs with
    | nil =>
      have hne : m.2 ≠ [] := hlast m (by simp)
      have hne' : m.2.length + (encode_messages []).length ≠ 0 := by
        have : m.2.length ≠ 0 := fun h => hne (List.length_eq_zero.mp h)
        simpa [encode_messages] using this
      rw [decode_all_cons (decode_step_single m.1 m.2 (encode_messages []) hp hne')]
      rfl
    | cons m' msgs' =>
      have hrestlen : (encode_messages (m' :: msgs')).length = 4 + m'.2.length +
          (encode_messages msgs').length := by
        rw [encode_messages_cons, List.length_append, encode_message_length]
      have hne' : m.2.length + (encode_messages (m' :: msgs')).length ≠ 0 := by omega
      rw [decode_all_cons (decode_step_single m.1 m.2 (encode_messages (m' :: msgs')) hp hne')]
      rw [ih (fun x hx => hch x (List.mem_cons_of_mem m hx))
        (fun x hx => hsz x (List.mem_cons_of_mem m hx))
        (fun x hx => hlast x (by rw [List.getLast?_cons_cons]; exact hx))]
      rfl

/-- C1 witness: the round trip at a concrete two-message sequence. -/
theorem framing_round_trip_witness :
    decode_all (encode_messages [(1, [7, 8]), (2, [9])]) =
      ([{ channel := 1, flags := 3, final_length := none, payload := [7, 8] },
        { channel := 2, flags := 3, final_length := none, payload := [9] }], []) :=
  framing_round_trip [(1, [7, 8]), (2, [9])] (by decide) (by decide) (by decide)

/-- C2: a valid two-frame message stream — a `FIRST` frame with payload
size 4 and `final_length` 7 followed by a `LAST` frame with payload size
3 — decodes differently when fed in chunks of 8 and 11 bytes than when
buffered whole: with exactly 8 bytes buffered, the decode loop of
`endpoint_reader` does not consume the 4-byte `total_length` (it requires
strictly more than 8 buffered bytes) and emits a packet whose payload is
the `total_length` bytes. This refutes the chunking-invariance claim at a
concrete input; the `>= 8` rule of the specification is the intent and the
strict `> 8` comparison in the code is the slip. -/
theorem chunking_divergence :
    decode_chunks [[1, 1, 0, 4, 0, 0, 0, 7], [65, 66, 67, 68, 1, 2, 0, 3, 69, 70, 71]] ≠
      decode_all [1, 1, 0, 4, 0, 0, 0, 7, 65, 66, 67, 68, 1, 2, 0, 3, 69, 70, 71] := by
  decide

/-- C3 counterexample: in a stall window where the USB counter advanced
(by 5 bytes) but the TCP counter did not, the monitor still fails, although
the claim says it does not fail when at least one of the two counters
advanced. -/
theorem stall_one_direction_cex : stall_run (0, 0) [(5, 0)] = none := by
  decide

/-- C3 (amended): the stall detector of `transfer_monitor` survives a
sequence of stall-window checks exactly when **both** byte counters
strictly advanced in every window; equivalently, a window in which either
counter (in particular: both) fails to advance fails the session with
"unexpected transfer stall". -/
theorem stall_detection_iff (last : Nat × Nat) (checks : List (Nat × Nat)) :
    (stall_run last checks).isSome ↔
      List.Chain (fun a b => a.1 < b.1 ∧ a.2 < b.2) last checks := by
  induction checks generalizing last with
  | nil => simp [stall_run]
  | cons cur rest ih =>
    by_cases h : cur.1 - last.1 = 0 ∨ cur.2 - last.2 = 0
    case pos =>
      have hrun : stall_run last (cur :: rest) = none := by
        simp only [stall_run, stall_step]
        rw [if_pos h]
      rw [hrun, List.chain_cons]
      refine iff_of_false (by simp) ?_
      intro hc
      obtain ⟨⟨h1, h2⟩, _⟩ := hc
      rcases h with h' | h' <;> omega
    case neg =>
      have hrun : stall_run last (cur :: rest) = stall_run cur rest := by
        simp only [stall_run, stall_step]
        rw [if_neg h]
      rw [hrun, List.chain_cons, ih cur]
      push_neg at h
      constructor
      · intro hc
        exact ⟨⟨by omega, by omega⟩, hc⟩
      · intro hc
        exact hc.2

/-- C4: `read_message` fails exactly when the expected message is
`WifiConnectStatus`, the payload has at least 2 bytes and its byte at index
1 is nonzero; in every other case — in particular whenever the received
`message_id` differs from the expected one, which is only logged — the
dialogue continues with `Ok(HEADER_LEN + len)`. The result does not depend
on the received `message_id` at all. -/
theorem read_message_error_iff (expected : MessageId) (message_id : Nat)
    (payload : List Nat) :
    (∃ e, read_message expected message_id payload = Except.error e) ↔
      (expected = MessageId.WifiConnectStatus ∧ 2 ≤ payload.length ∧
        payload.getD 1 0 ≠ 0) := by
  unfold read_message
  constructor
  · intro ⟨e, he⟩
    by_cases h0 : 0 < payload.length
    · rw [if_pos h0] at he
      by_cases h1 : expected = MessageId.WifiConnectStatus ∧ 2 ≤ payload.length
      · rw [if_pos h1] at he
        by_cases h2 : payload.getD 1 0 ≠ 0
        · exact ⟨h1.1, h1.2, h2⟩
        · rw [if_neg h2] at he
          cases he
      · rw [if_neg h1] at he
        cases he
    · rw [if_neg h0] at he
      cases he
  · intro ⟨h1, h2, h3⟩
    refine ⟨"phone cannot connect to our WiFi AP...", ?_⟩
    rw [if_pos (by omega), if_pos ⟨h1, h2⟩, if_pos h3]

/-- C9: on a monitor tick, a pending action in the shared-config slot
always fails the session with an error carrying that action; the slot is
cleared before failing exactly when the action is `Reconnect` (it is left
holding `Reboot` or `Stop` otherwise), and an empty slot neither fails nor
writes. -/
theorem monitor_action_handling (a : Action) :
    (action_check (some a)).2 = some a ∧
      ((action_check (some a)).1 = none ↔ a = Action.Reconnect) ∧
      ((action_check (some a)).1 = some a ↔ a ≠ Action.Reconnect) ∧
      action_check none = (none, none) := by
  cases a <;> simp [action_check]

/-- C8 counterexample: when the uevent signal never fires, both 3-second
waits time out and `enable_default_and_wait_for_accessory` nevertheless
proceeds to enable the accessory gadget, so the accessory `UDC` write is
not guarded by a fired signal as the claim states. -/
theorem usb_choreography_cex :
    UsbEvent.write_udc ACCESSORY_GADGET_NAME ∈
        (enable_default_and_wait_for_accessory true (fun _ => false)
          { default_attached := false, accessory_attached := false }).2 ∧
      UsbEvent.wait_accessory true ∉
        (enable_default_and_wait_for_accessory true (fun _ => false)
          { default_attached := false, accessory_attached := false }).2 := by
  decide

/-- C8 (amended): from a clean state in legacy mode,
`enable_default_and_wait_for_accessory` performs, in order: (a) write the
UDC name to `default/UDC`; (b) wait for the uevent watcher's
ACCESSORY=START signal with a 3 s timeout, waiting a second time if the
first wait timed out (the repeated enable writes nothing because `default`
is still bound); (c) clear `default/UDC`; (d) sleep 100 ms; (e) write the
UDC name to `accessory/UDC`. Steps (c)-(e) run after the wait concludes,
whether the signal fired or both waits timed out. -/
theorem usb_choreography (signal : Nat → Bool) :
    (enable_default_and_wait_for_accessory true signal
        { default_attached := false, accessory_attached := false }).2 =
      [UsbEvent.write_udc DEFAULT_GADGET_NAME, UsbEvent.wait_accessory (signal 1)] ++
        (if signal 1 then [] else [UsbEvent.wait_accessory (signal 2)]) ++
        [UsbEvent.clear_udc DEFAULT_GADGET_NAME, UsbEvent.sleep_ms 100,
         UsbEvent.write_udc ACCESSORY_GADGET_NAME] := by
  by_cases h1 : signal 1 <;>
    simp [enable_default_and_wait_for_accessory, gadget_enable, gadget_disable,
      switch_to_accessory, GadgetState.attached, GadgetState.set_attached,
      DEFAULT_GADGET_NAME, ACCESSORY_GADGET_NAME, h1]

/-! ## Lemmas on the ServiceDiscoveryResponse passes -/

theorem svcpre_refl (x : Service) : SvcPre x x :=
  ⟨rfl, rfl, Iff.rfl⟩

theorem svcpre_trans (a b c : Service) (h₁ : SvcPre a b) (h₂ : SvcPre b c) : SvcPre a c :=
  ⟨h₁.1.trans h₂.1, h₁.2.1.trans h₂.2.1, h₁.2.2.trans h₂.2.2⟩

theorem forall2_refl {α : Type} {R : α → α → Prop} (hrefl : ∀ x, R x x) (l : List α) :
    List.Forall₂ R l l :=
  List.forall₂_same.mpr (fun x _ => hrefl x)

theorem forall2_trans {α : Type} {R : α → α → Prop}
    (htrans : ∀ a b c, R a b → R b c → R a c) :
    ∀ {l₁ l₂ l₃ : List α}, List.Forall₂ R l₁ l₂ → List.Forall₂ R l₂ l₃ →
      List.Forall₂ R l₁ l₃ := by
  intro l₁ l₂ l₃ h₁ h₂
  induction h₁ generalizing l₃ with
  | nil =>
    cases h₂
    exact List.Forall₂.nil
  | cons hab h ih =>
    cases h₂ with
    | cons hbc h' => exact List.Forall₂.cons (htrans _ _ _ hab hbc) (ih h')

theorem forall2_modify_first {α : Type} {R : α → α → Prop} (hrefl : ∀ x, R x x)
    {p : α → Bool} {f : α → α} (hf : ∀ x, p x = true → R x (f x)) :
    ∀ l : List α, List.Forall₂ R l (modify_first p f l) := by
  intro l
  induction l with
  | nil => exact List.Forall₂.nil
  | cons x xs ih =>
    unfold modify_first
    by_cases hx : p x
    · rw [if_pos hx]
      exact List.Forall₂.cons (hf x hx) (forall2_refl hrefl xs)
    · rw [if_neg hx]
      exact List.Forall₂.cons (hrefl x) ih

theorem audioType_dpi_update (d : Nat) (svc : Service) :
    Service.audioType (dpi_update d svc) = Service.audioType svc := by
  unfold dpi_update Service.audioType
  cases h : svc.media_sink_service <;> simp [h]

theorem svcpre_dpi_update (d : Nat) (svc : Service) : SvcPre svc (dpi_update d svc) :=
  ⟨rfl, rfl, by rw [audioType_dpi_update]⟩

theorem svcpre_tts_sink_update (svc : Service) (h : tts_sink_match svc = true) :
    SvcPre svc (tts_sink_update svc) := by
  refine ⟨rfl, rfl, ?_⟩
  unfold tts_sink_match at h
  simp only [Bool.and_eq_true, decide_eq_true_eq] at h
  obtain ⟨hconf, hguid⟩ := h
  cases hmsink : svc.media_sink_service with
  | none =>
    exfalso
    unfold Service.audio_configs at hconf
    rw [hmsink] at hconf
    simp [MediaSinkService.empty] at hconf
  | some m =>
    have hs : Service.audioType (tts_sink_update svc) =
        AudioStreamType.AUDIO_STREAM_SYSTEM_AUDIO := by
      unfold tts_sink_update Service.audioType
      rw [hmsink]
      simp
    rw [hguid, hs]
    simp

theorem forall2_tts_disable_iter (fuel : Nat) (l : List Service) :
    List.Forall₂ SvcPre l (tts_disable_iter fuel l) := by
  induction fuel generalizing l with
  | zero => exact forall2_refl svcpre_refl l
  | succ n ih =>
    unfold tts_disable_iter
    by_cases h : l.any tts_sink_match
    · rw [if_pos h]
      exact forall2_trans svcpre_trans
        (forall2_modify_first svcpre_refl (fun x hx => svcpre_tts_sink_update x hx) l)
        (ih _)
    · rw [if_neg h]
      exact forall2_refl svcpre_refl l

theorem forall2_pre_dpi (cfg : AppConfig) (l : List Service) :
    List.Forall₂ SvcPre l (sdr_pass_dpi cfg l) := by
  unfold sdr_pass_dpi
  by_cases h : 0 < cfg.dpi
  · rw [if_pos h]
    exact forall2_modify_first svcpre_refl (fun x _ => svcpre_dpi_update cfg.dpi x) l
  · rw [if_neg h]
    exact forall2_refl svcpre_refl l

theorem forall2_pre_tts (cfg : AppConfig) (l : List Service) :
    List.Forall₂ SvcPre l (sdr_pass_tts cfg l) := by
  unfold sdr_pass_tts
  by_cases h : cfg.disable_tts_sink
  · rw [if_pos h]
    exact forall2_tts_disable_iter l.length l
  · rw [if_neg h]
    exact forall2_refl svcpre_refl l

theorem svctap_tap_update (svc : Service) : SvcTap svc (tap_update svc) :=
  ⟨rfl, rfl⟩

theorem svctap_ev_update (cfg : AppConfig) (svc : Service) : SvcTap svc (ev_update cfg svc) :=
  ⟨rfl, rfl⟩

theorem forall2_tap (cfg : AppConfig) (l : List Service) :
    List.Forall₂ SvcTap l (sdr_pass_tap cfg l) := by
  unfold sdr_pass_tap
  by_cases h : cfg.remove_tap_restriction
  · rw [if_pos h]
    exact forall2_modify_first (fun x => ⟨rfl, rfl⟩) (fun x _ => svctap_tap_update x) l
  · rw [if_neg h]
    exact forall2_refl (fun x => ⟨rfl, rfl⟩) l

theorem forall2_ev (cfg : AppConfig) (l : List Service) :
    List.Forall₂ SvcTap l (sdr_pass_ev cfg l) := by
  unfold sdr_pass_ev
  by_cases h : cfg.ev
  · rw [if_pos h]
    exact forall2_modify_first (fun x => ⟨rfl, rfl⟩) (fun x _ => svctap_ev_update cfg x) l
  · rw [if_neg h]
    exact forall2_refl (fun x => ⟨rfl, rfl⟩) l

theorem find_sensors_map_eq {l l' : List Service} (h : List.Forall₂ SvcPre l l') :
    (l.find? sensors_match).map (fun svc => svc.id % 256) =
      (l'.find? sensors_match).map (fun svc => svc.id % 256) := by
  induction h with
  | nil => rfl
  | @cons a b l₁ l₂ hab htl ih =>
    obtain ⟨hid, hsens, _⟩ := hab
    have hp : sensors_match a = sensors_match b := by
      unfold sensors_match
      rw [hsens]
    by_cases hpa : sensors_match a
    · rw [List.find?_cons_of_pos _ hpa, List.find?_cons_of_pos _ (hp ▸ hpa)]
      simp [hid]
    · rw [List.find?_cons_of_neg _ (by simpa using hpa),
        List.find?_cons_of_neg _ (by rw [← hp]; simpa using hpa)]
      exact ih

theorem filter_media_map_id {l l' : List Service} (h : List.Forall₂ SvcPre l l') :
    (l.filter media_sink_keep).map Service.id =
      (l'.filter media_sink_keep).map Service.id := by
  induction h with
  | nil => rfl
  | @cons a b l₁ l₂ hab htl ih =>
    obtain ⟨hid, _, hmedia⟩ := hab
    by_cases hpa : Service.audioType a = AudioStreamType.AUDIO_STREAM_MEDIA
    · rw [List.filter_cons_of_neg (by simp [media_sink_keep, hpa]),
        List.filter_cons_of_neg (by simp [media_sink_keep, hmedia.mp hpa])]
      exact ih
    · have hpb : ¬ Service.audioType b = AudioStreamType.AUDIO_STREAM_MEDIA :=
        fun hb => hpa (hmedia.mpr hb)
      rw [List.filter_cons_of_pos (by simpa [media_sink_keep] using hpa),
        List.filter_cons_of_pos (by simpa [media_sink_keep] using hpb)]
      simp only [List.map_cons]
      rw [hid, ih]

theorem map_id_of_svctap {l l' : List Service} (h : List.Forall₂ SvcTap l l') :
    l.map Service.id = l'.map Service.id := by
  induction h with
  | nil => rfl
  | @cons a b l₁ l₂ hab htl ih => simp [hab.1, ih]

theorem media_free_of_svctap {l l' : List Service} (h : List.Forall₂ SvcTap l l')
    (hall : ∀ svc ∈ l, Service.audioType svc ≠ AudioStreamType.AUDIO_STREAM_MEDIA) :
    ∀ svc ∈ l', Service.audioType svc ≠ AudioStreamType.AUDIO_STREAM_MEDIA := by
  induction h with
  | nil => intro svc hsvc; cases hsvc
  | @cons a b l₁ l₂ hab htl ih =>
    intro svc hsvc
    rcases List.mem_cons.mp hsvc with rfl | hsvc'
    · rw [← hab.2]
      exact hall a (by simp)
    · exact ih (fun x hx => hall x (List.mem_cons_of_mem _ hx)) svc hsvc'

theorem media_free_of_if_filter {P : Service → Prop} (b : Bool) (q : Service → Bool)
    {l : List Service} (hall : ∀ svc ∈ l, P svc) :
    ∀ svc ∈ (if b then l.filter q else l), P svc := by
  cases b with
  | false =>
    simpa using hall
  | true =>
    intro svc hsvc
    simp only [if_pos] at hsvc
    exact hall svc (List.mem_of_mem_filter hsvc)

theorem sdr_modify_sensor_channel (cfg : AppConfig) (msg : ServiceDiscoveryResponse)
    (hm : cfg.disable_media_sink = false)
    (hev : (cfg.ev || cfg.video_in_motion) = true) :
    (sdr_modify cfg msg).sensor_channel =
      (msg.services.find? sensors_match).map (fun svc => svc.id % 256) := by
  have hmedia : sdr_pass_media cfg (sdr_pass_tts cfg (sdr_pass_dpi cfg msg.services)) =
      sdr_pass_tts cfg (sdr_pass_dpi cfg msg.services) := by
    simp [sdr_pass_media, hm]
  simp only [sdr_modify]
  rw [hmedia, if_pos hev]
  exact (find_sensors_map_eq (forall2_trans svcpre_trans (forall2_pre_dpi cfg msg.services)
    (forall2_pre_tts cfg _))).symm

theorem mem_of_mem_if_filter {α : Type} {q : α → Bool} {l : List α} {x : α} {b : Bool}
    (hx : x ∈ (if b then l.filter q else l)) : x ∈ l := by
  cases b with
  | false => simpa using hx
  | true => exact List.mem_of_mem_filter (by simpa using hx)

theorem controlMessageTypeFromI32_sdr :
    controlMessageTypeFromI32 MESSAGE_SERVICE_DISCOVERY_RESPONSE_CODE =
      some ControlMessageType.MESSAGE_SERVICE_DISCOVERY_RESPONSE := by
  decide

theorem sensorMessageIdFromI32_request :
    sensorMessageIdFromI32 SENSOR_MESSAGE_REQUEST_CODE =
      some SensorMessageId.SENSOR_MESSAGE_REQUEST := by
  decide

/-- Reduction of `pkt_modify_hook` on a head-unit control-channel packet
that parses as a `ServiceDiscoveryResponse`, with no sensor or navigation
channel learned yet: the packet payload is rewritten to the re-serialized
message behind the original message id, and the captured channels land in
the context (and the shared slot for the sensor channel) only when a
capture happened. -/
theorem pkt_modify_hook_sdr (codec : ProtoCodec) (pkt : Packet) (ctx : ModifyContext)
    (slot : Option Nat) (cfg : AppConfig) (action0 : Option Action)
    (msg : ServiceDiscoveryResponse)
    (hchan : pkt.channel = 0)
    (hsens : ctx.sensor_channel = none)
    (hnav : ctx.nav_channel = none)
    (hlen : 2 ≤ pkt.payload.length)
    (hid : pkt.payload.getD 0 0 * 256 + pkt.payload.getD 1 0 =
      MESSAGE_SERVICE_DISCOVERY_RESPONSE_CODE)
    (hparse : codec.parseServiceDiscoveryResponse (pkt.payload.drop 2) = some msg) :
    pkt_modify_hook codec ProxyType.HeadUnit pkt ctx slot cfg action0 =
      some { handled := false,
             pkt := { pkt with payload :=
               (MESSAGE_SERVICE_DISCOVERY_RESPONSE_CODE / 256) % 256 ::
                 MESSAGE_SERVICE_DISCOVERY_RESPONSE_CODE % 256 ::
                 codec.writeServiceDiscoveryResponse (sdr_modify cfg msg).msg },
             ctx := { sensor_channel :=
                        match (sdr_modify cfg msg).sensor_channel with
                        | some v => some v
                        | none => ctx.sensor_channel,
                      nav_channel :=
                        match (sdr_modify cfg msg).nav_channel with
                        | some v => some v
                        | none => ctx.nav_channel },
             sensor_channel_slot :=
               match (sdr_modify cfg msg).sensor_channel with
               | some v => some v
               | none => slot,
             action_requested := action0, ev_start := none } := by
  have hlen2 : ¬ pkt.payload.length < 2 := by omega
  simp only [pkt_modify_hook, hlen2, if_false, hsens, nav_and_control, hnav,
    control_channel_branch, hchan, hid, controlMessageTypeFromI32_sdr, Option.getD_some,
    hparse]
  simp

/-- C6 counterexample: with EV features and the media-sink disable both
set, the hook captures the sensor channel from the list **after** the
media filter: the input's first service with non-empty sensors (id 1, a
media sink) was dropped, so the captured id is 2, not 1 as the claim
("first service in the input") requires. -/
theorem sensor_capture_cex :
    (pkt_modify_hook sensor_capture_cex_codec ProxyType.HeadUnit sensor_capture_cex_pkt
        { sensor_channel := none, nav_channel := none } none sensor_capture_cex_cfg none).map
        (fun r => (r.ctx.sensor_channel, r.sensor_channel_slot)) = some (some 2, some 2) ∧
      (sensor_capture_cex_msg.services.find? sensors_match).map (fun svc => svc.id % 256) =
        some 1 := by
  constructor
  · rfl
  · rfl

/-- C6 (amended): when a head-unit `ServiceDiscoveryResponse` passes
through `pkt_modify_hook` with no channels learned yet, EV or
video-in-motion enabled and the media-sink filter off, the captured
sensor channel — both the `ModifyContext` field and the shared slot used
by the HTTP EV endpoint — is the low byte (`svc.id() as u8`) of the id of
the first service in the input whose `sensor_source_service.sensors` is
non-empty. -/
theorem sensor_channel_capture (codec : ProtoCodec) (pkt : Packet) (ctx : ModifyContext)
    (slot : Option Nat) (cfg : AppConfig) (action0 : Option Action)
    (msg : ServiceDiscoveryResponse) (svc : Service)
    (hchan : pkt.channel = 0)
    (hsens : ctx.sensor_channel = none)
    (hnav : ctx.nav_channel = none)
    (hlen : 2 ≤ pkt.payload.length)
    (hid : pkt.payload.getD 0 0 * 256 + pkt.payload.getD 1 0 =
      MESSAGE_SERVICE_DISCOVERY_RESPONSE_CODE)
    (hparse : codec.parseServiceDiscoveryResponse (pkt.payload.drop 2) = some msg)
    (hm : cfg.disable_media_sink = false)
    (hev : (cfg.ev || cfg.video_in_motion) = true)
    (hfound : msg.services.find? sensors_match = some svc) :
    ∃ r, pkt_modify_hook codec ProxyType.HeadUnit pkt ctx slot cfg action0 = some r ∧
      r.ctx.sensor_channel = some (svc.id % 256) ∧
      r.sensor_channel_slot = some (svc.id % 256) := by
  have hcap : (sdr_modify cfg msg).sensor_channel = some (svc.id % 256) := by
    rw [sdr_modify_sensor_channel cfg msg hm hev, hfound]
    rfl
  refine ⟨_, pkt_modify_hook_sdr codec pkt ctx slot cfg action0 msg hchan hsens hnav hlen
    hid hparse, ?_, ?_⟩
  · show (match (sdr_modify cfg msg).sensor_channel with
      | some v => some v
      | none => ctx.sensor_channel) = some (svc.id % 256)
    rw [hcap]
  · show (match (sdr_modify cfg msg).sensor_channel with
      | some v => some v
      | none => slot) = some (svc.id % 256)
    rw [hcap]

/-- C6 witness: the capture at a concrete packet, codec and
configuration. -/
theorem sensor_channel_capture_witness :
    ∃ r, pkt_modify_hook witness_codec ProxyType.HeadUnit
        { channel := 0, flags := 0, final_length := none, payload := [0, 6, 7] }
        { sensor_channel := none, nav_channel := none } none { ev := true } none = some r ∧
      r.ctx.sensor_channel = some (3 % 256) ∧
      r.sensor_channel_slot = some (3 % 256) :=
  sensor_channel_capture witness_codec
    { channel := 0, flags := 0, final_length := none, payload := [0, 6, 7] }
    { sensor_channel := none, nav_channel := none } none { ev := true } none
    { services :=
        [{ id := 3, media_sink_service := none,
           sensor_source_service :=
             some { sensors := [{ sensor_type := SensorType.SENSOR_SPEED }],
                    supported_fuel_types := [],
                    supported_ev_connector_types := [] },
           navigation_status_service := none, bluetooth_service := none,
           wifi_projection_service := none }],
      make := "Car", model := "HU" }
    { id := 3, media_sink_service := none,
      sensor_source_service :=
        some { sensors := [{ sensor_type := SensorType.SENSOR_SPEED }],
               supported_fuel_types := [],
               supported_ev_connector_types := [] },
      navigation_status_service := none, bluetooth_service := none,
      wifi_projection_service := none }
    rfl rfl rfl (by decide) (by decide) rfl rfl rfl (by decide)

/-- C7 counterexample: with the media sink disabled **and** the Bluetooth
strip on, a service whose audio type is not `AUDIO_STREAM_MEDIA` (it has no
media sink at all) is still removed from the output, so the claim's
"every service whose audio_type is not AUDIO_STREAM_MEDIA is retained"
fails on the code. -/
theorem media_disable_cex :
    media_disable_cex_svc ∈ media_disable_cex_msg.services ∧
      Service.audioType media_disable_cex_svc ≠ AudioStreamType.AUDIO_STREAM_MEDIA ∧
      media_disable_cex_cfg.disable_media_sink = true ∧
      (sdr_modify media_disable_cex_cfg media_disable_cex_msg).msg.services = [] := by
  refine ⟨by decide, by decide, rfl, rfl⟩

/-- C7 (amended): with `disable_media_sink = true`, the
`ServiceDiscoveryResponse` produced by the rewrite contains no service
with `audio_type == AUDIO_STREAM_MEDIA`; and provided the Bluetooth and
Wi-Fi strip passes are off, the output services are exactly (by id, in
order) the input services whose audio type is not `AUDIO_STREAM_MEDIA` —
in particular every service without a media sink is retained. -/
theorem media_sink_disable (cfg : AppConfig) (msg : ServiceDiscoveryResponse)
    (hm : cfg.disable_media_sink = true) :
    (∀ svc ∈ (sdr_modify cfg msg).msg.services,
      Service.audioType svc ≠ AudioStreamType.AUDIO_STREAM_MEDIA) ∧
    (cfg.remove_bluetooth = false → cfg.remove_wifi = false →
      ((sdr_modify cfg msg).msg.services).map Service.id =
        (msg.services.filter media_sink_keep).map Service.id) := by
  have hs3 : sdr_pass_media cfg (sdr_pass_tts cfg (sdr_pass_dpi cfg msg.services)) =
      (sdr_pass_tts cfg (sdr_pass_dpi cfg msg.services)).filter media_sink_keep := by
    simp [sdr_pass_media, hm]
  have hsvcs : (sdr_modify cfg msg).msg.services =
      sdr_pass_ev cfg (sdr_pass_wifi cfg (sdr_pass_bt cfg (sdr_pass_tap cfg
        ((sdr_pass_tts cfg (sdr_pass_dpi cfg msg.services)).filter media_sink_keep)))) := by
    simp only [sdr_modify, hs3]
  rw [hsvcs]
  have h3 : ∀ svc ∈ (sdr_pass_tts cfg (sdr_pass_dpi cfg msg.services)).filter media_sink_keep,
      Service.audioType svc ≠ AudioStreamType.AUDIO_STREAM_MEDIA := by
    intro svc hsvc
    have := List.of_mem_filter hsvc
    simpa [media_sink_keep] using this
  constructor
  · have h4 := media_free_of_svctap (forall2_tap cfg _) h3
    have h5 : ∀ svc ∈ sdr_pass_bt cfg (sdr_pass_tap cfg
        ((sdr_pass_tts cfg (sdr_pass_dpi cfg msg.services)).filter media_sink_keep)),
        Service.audioType svc ≠ AudioStreamType.AUDIO_STREAM_MEDIA := by
      intro svc hsvc
      unfold sdr_pass_bt at hsvc
      exact h4 svc (mem_of_mem_if_filter hsvc)
    have h6 : ∀ svc ∈ sdr_pass_wifi cfg (sdr_pass_bt cfg (sdr_pass_tap cfg
        ((sdr_pass_tts cfg (sdr_pass_dpi cfg msg.services)).filter media_sink_keep))),
        Service.audioType svc ≠ AudioStreamType.AUDIO_STREAM_MEDIA := by
      intro svc hsvc
      unfold sdr_pass_wifi at hsvc
      exact h5 svc (mem_of_mem_if_filter hsvc)
    exact media_free_of_svctap (forall2_ev cfg _) h6
  · intro hbt hwf
    have hbtid : ∀ l : List Service, sdr_pass_bt cfg l = l := fun l => by
      simp [sdr_pass_bt, hbt]
    have hwfid : ∀ l : List Service, sdr_pass_wifi cfg l = l := fun l => by
      simp [sdr_pass_wifi, hwf]
    rw [hbtid, hwfid]
    calc (sdr_pass_ev cfg (sdr_pass_tap cfg
            ((sdr_pass_tts cfg (sdr_pass_dpi cfg msg.services)).filter media_sink_keep))).map
          Service.id
        = (sdr_pass_tap cfg ((sdr_pass_tts cfg (sdr_pass_dpi cfg
            msg.services)).filter media_sink_keep)).map Service.id :=
          (map_id_of_svctap (forall2_ev cfg _)).symm
      _ = ((sdr_pass_tts cfg (sdr_pass_dpi cfg msg.services)).filter media_sink_keep).map
            Service.id :=
          (map_id_of_svctap (forall2_tap cfg _)).symm
      _ = (msg.services.filter media_sink_keep).map Service.id :=
          (filter_media_map_id (forall2_trans svcpre_trans (forall2_pre_dpi cfg msg.services)
            (forall2_pre_tts cfg _))).symm

/-- C7 witness: the amended property at a concrete configuration and
message. -/
theorem media_sink_disable_witness :
    (∀ svc ∈ (sdr_modify { disable_media_sink := true } sensor_capture_cex_msg).msg.services,
      Service.audioType svc ≠ AudioStreamType.AUDIO_STREAM_MEDIA) ∧
    (false = false → false = false →
      ((sdr_modify { disable_media_sink := true } sensor_capture_cex_msg).msg.services).map
          Service.id =
        (sensor_capture_cex_msg.services.filter media_sink_keep).map Service.id) :=
  media_sink_disable { disable_media_sink := true } sensor_capture_cex_msg rfl

/-- C5: on the learned sensor channel, a packet whose 2-byte big-endian
message id is `SENSOR_MESSAGE_REQUEST` and whose body parses to a
`SensorRequest` of type `SENSOR_VEHICLE_ENERGY_MODEL_DATA` makes
`pkt_modify_hook` return `handled = true` and replace the packet with one
on the same channel, flags `ENCRYPTED|FIRST|LAST`, no `final_length`, and
payload equal to the 2-byte big-endian `SENSOR_MESSAGE_RESPONSE` id
followed by the serialized `SensorResponse` with status `STATUS_SUCCESS`;
the EV battery logger is started exactly when one is configured. -/
theorem sensor_ev_synthesis (codec : ProtoCodec) (proxy_type : ProxyType) (pkt : Packet)
    (ctx : ModifyContext) (slot : Option Nat) (cfg : AppConfig) (action0 : Option Action)
    (ch : Nat) (req : SensorRequest)
    (hctx : ctx.sensor_channel = some ch)
    (hch : pkt.channel = ch)
    (hlen : 2 ≤ pkt.payload.length)
    (hid : pkt.payload.getD 0 0 * 256 + pkt.payload.getD 1 0 = SENSOR_MESSAGE_REQUEST_CODE)
    (hparse : codec.parseSensorRequest (pkt.payload.drop 2) = some req)
    (htype : req.type_ = SensorType.SENSOR_VEHICLE_ENERGY_MODEL_DATA) :
    pkt_modify_hook codec proxy_type pkt ctx slot cfg action0 =
      some { handled := true,
             pkt := { channel := ch,
                      flags := Nat.lor ENCRYPTED (Nat.lor FRAME_TYPE_FIRST FRAME_TYPE_LAST),
                      final_length := none,
                      payload := (SENSOR_MESSAGE_RESPONSE_CODE / 256) % 256 ::
                        SENSOR_MESSAGE_RESPONSE_CODE % 256 ::
                        codec.writeSensorResponse { status := MessageStatus.STATUS_SUCCESS } },
             ctx := ctx, sensor_channel_slot := slot, action_requested := action0,
             ev_start := cfg.ev_battery_logger } := by
  have hlen2 : ¬ pkt.payload.length < 2 := by omega
  have hcheq : ch = pkt.channel := hch.symm
  simp only [pkt_modify_hook, hlen2, if_false, hctx, hcheq, if_pos,
    sensor_channel_branch, hid, sensorMessageIdFromI32_request, Option.getD_some, hparse,
    htype, if_true]

/-- C5 witness: the synthesis at a concrete packet and codec (message id
bytes `[128, 1]` encode 32769 = `SENSOR_MESSAGE_REQUEST`, body `[1]`
parses to the energy-model sensor request). -/
theorem sensor_ev_synthesis_witness :
    pkt_modify_hook witness_codec ProxyType.HeadUnit
        { channel := 4, flags := 8, final_length := none, payload := [128, 1, 1] }
        { sensor_channel := some 4, nav_channel := none } none {} none =
      some { handled := true,
             pkt := { channel := 4,
                      flags := Nat.lor ENCRYPTED (Nat.lor FRAME_TYPE_FIRST FRAME_TYPE_LAST),
                      final_length := none,
                      payload := (SENSOR_MESSAGE_RESPONSE_CODE / 256) % 256 ::
                        SENSOR_MESSAGE_RESPONSE_CODE % 256 ::
                        witness_codec.writeSensorResponse
                          { status := MessageStatus.STATUS_SUCCESS } },
             ctx := { sensor_channel := some 4, nav_channel := none },
             sensor_channel_slot := none, action_requested := none, ev_start := none } :=
  sensor_ev_synthesis witness_codec ProxyType.HeadUnit
    { channel := 4, flags := 8, final_length := none, payload := [128, 1, 1] }
    { sensor_channel := some 4, nav_channel := none } none {} none 4
    { type_ := SensorType.SENSOR_VEHICLE_ENERGY_MODEL_DATA }
    rfl rfl (by decide) (by decide) rfl rfl

/-- C10: `pkt_modify_hook` is not total — on the learned navigation
channel, head-unit side, a 2-byte payload `[0x80, 0x06]` passes the length
guard and the first two fingerprint tests, and the code then indexes
`pkt.payload[2]` without a bounds check: the hook panics (result `none`)
for every codec and configuration. -/
theorem nav_fingerprint_panic (codec : ProtoCodec) (cfg : AppConfig) (slot : Option Nat)
    (action0 : Option Action) (fl : Nat) :
    pkt_modify_hook codec ProxyType.HeadUnit
        { channel := 5, flags := fl, final_length := none, payload := [128, 6] }
        { sensor_channel := none, nav_channel := some 5 } slot cfg action0 = none := by
  simp [pkt_modify_hook, nav_and_control]

end AAProxy
